import Mathlib

/-!
Verification of the Brain Tumour Analyzer application (`src/app.py`).

The program is a single-page Streamlit form.  Its session state holds a
list of patient records, an `analysis_done` flag and the latest report.
Two button handlers mutate this state: "Analyze Symptoms" and
"Generate Full Report".  A pure function `generate_full_medical_report`
builds the report text, `generate_pdf` turns that text into a flowable
story (one paragraph plus one spacer per line), and the history section
renders one expander per stored record.

This file gives a shallow embedding of these pieces — the string
template, the two handlers, the PDF story builder and the history
renderer — and proves the specification's claims about them.
-/

/-- A stored patient record, mirroring the dict appended to
`st.session_state.patient_history` in `app.py` (keys `id`, `name`,
`date`, `report`). -/
structure PatientRecord where
  id : String
  name : String
  date : String
  report : String
deriving Repr, DecidableEq

/-- The per-session mutable state of the app: `st.session_state.patient_history`,
`st.session_state.analysis_done`, `st.session_state.latest_report`. -/
structure SessionState where
  patient_history : List PatientRecord
  analysis_done : Bool
  latest_report : Option String
deriving Repr, DecidableEq

/-- Initial session state as set up at the top of `app.py`:
empty history, `analysis_done = False`, `latest_report = None`. -/
def initState : SessionState :=
  { patient_history := [], analysis_done := false, latest_report := none }

/-- The widget values read by the handlers: the sidebar text inputs,
the age spinner, the gender selector, the (unused) MRI upload, the
symptom text area and the (unused) confidence checkbox. -/
structure Inputs where
  patient_id : String
  patient_name : String
  patient_age : Nat
  patient_gender : String
  mri_file : Option (List Nat)
  symptoms : String
  show_confidence : Bool
deriving Repr, DecidableEq

/-- The two `datetime.now().strftime` renderings used by the app:
`%d %B %Y` inside the report text and `%d-%m-%Y` for the history entry. -/
structure Dates where
  reportDate : String
  historyDate : String
deriving Repr, DecidableEq

/-- User-visible feedback emitted by a handler
(`st.success` / `st.warning`). -/
inductive Feedback where
  | success (msg : String)
  | warning (msg : String)
deriving Repr, DecidableEq

/-- The characters stripped by Python's `str.strip()` on ASCII input:
space, tab, newline, carriage return, vertical tab, form feed. -/
def pyIsSpace (c : Char) : Bool :=
  c = ' ' || c = '\t' || c = '\n' || c = '\r' || c = '\x0b' || c = '\x0c'

/-- Python's `s.strip()`: drop leading and trailing whitespace. -/
def pyStrip (s : String) : String :=
  String.mk (((s.data.dropWhile pyIsSpace).reverse.dropWhile pyIsSpace).reverse)

/-- The "Analyze Symptoms" handler (`app.py` lines 71–76):
`if symptoms.strip(): analysis_done = True; st.success(...)`
`else: st.warning("Please enter symptoms")`. -/
def analyzeSymptoms (symptoms : String) (s : SessionState) :
    SessionState × Feedback :=
  if pyStrip symptoms ≠ "" then
    ({ s with analysis_done := true },
     Feedback.success "Symptoms analyzed successfully")
  else
    (s, Feedback.warning "Please enter symptoms")

/- The report template of `generate_full_medical_report` (`app.py`
lines 92–140), split at the five f-string interpolation points.  Each
chunk below is the literal text standing between two interpolations. -/

/-- Template text before `{patient_id}`. -/
def tplBeforeId : String :=
  "\nPATIENT MEDICAL REPORT\n---------------------\n\nPatient ID      : "

/-- Template text between `{patient_id}` and `{patient_name}`. -/
def tplBeforeName : String := "\nPatient Name    : "

/-- Template text between `{patient_name}` and `{patient_age}`. -/
def tplBeforeAge : String := "\nAge             : "

/-- Template text between `{patient_age}` and `{patient_gender}`. -/
def tplBeforeGender : String := " Years\nGender          : "

/-- Template text between `{patient_gender}` and the report date. -/
def tplBeforeDate : String := "\nReport Date     : "

/-- Template text between the report date and `{tumor_type}`. -/
def tplBeforeTumor : String :=
  "\n\nMRI SCAN FINDINGS\n----------------\nThe uploaded MRI brain scan was carefully examined.\n\nAbnormal tissue structures were observed,\nsuggesting the presence of a brain lesion.\n\nCLINICAL SYMPTOM ASSESSMENT\n--------------------------\nThe patient reported neurological symptoms including\nheadache, visual disturbances, and cognitive discomfort.\n\nThe symptoms show clinical correlation with MRI findings.\n\nFINAL DIAGNOSTIC CONCLUSION\n--------------------------\nBased on combined MRI imaging and symptom evaluation,\nthere is a high likelihood of a "

/-- Template text after `{tumor_type}`, to the end of the report. -/
def tplAfterTumor : String :=
  " brain tumor.\n\nRISK ASSESSMENT\n---------------\nRisk Level : High\n\nMEDICAL RECOMMENDATIONS\n-----------------------\n• Immediate consultation with a Neurologist\n• Further diagnostic confirmation if required\n• Continuous neurological monitoring\n• Avoid delay in medical evaluation\n\nDISCLAIMER\n----------\nThis report is generated using an AI-assisted system\nfor educational and research purposes only.\nIt does not replace professional medical diagnosis.\n"

/-- `generate_full_medical_report` (`app.py` lines 92–140).  It reads
only `patient_id`, `patient_name`, `patient_age`, `patient_gender` and
the current date; `tumor_type` is the local constant `"Glioma"`.
The symptom text and the uploaded MRI file are not consulted. -/
def generate_full_medical_report (inp : Inputs) (reportDate : String) : String :=
  let tumor_type : String := "Glioma"
  tplBeforeId ++ inp.patient_id ++
  tplBeforeName ++ inp.patient_name ++
  tplBeforeAge ++ toString inp.patient_age ++
  tplBeforeGender ++ inp.patient_gender ++
  tplBeforeDate ++ reportDate ++
  tplBeforeTumor ++ tumor_type ++
  tplAfterTumor

/-- One flowable appended to the PDF story: a `Paragraph` with its text,
or the fixed `Spacer(1, 0.2*inch)`. -/
inductive StoryElem where
  | paragraph (text : String)
  | spacer
deriving Repr, DecidableEq

/-- Python's `line.replace("&", "&amp;")` on the character list: every
`&` is replaced (left to right, the replacement is not rescanned) and
every other character is passed through unchanged. -/
def replaceAmpChars : List Char → List Char
  | [] => []
  | c :: cs =>
    if c = '&' then '&' :: 'a' :: 'm' :: 'p' :: ';' :: replaceAmpChars cs
    else c :: replaceAmpChars cs

/-- `line.replace("&", "&amp;")` as used in `generate_pdf`
(`app.py` line 161). -/
def escapeAmp (line : String) : String :=
  String.mk (replaceAmpChars line.data)

/-- Helper for Python's `s.split("\n")`: walk the characters keeping
the (reversed) current line in `acc`, emitting a line at every newline
and the final line at the end. -/
def splitNlAux : List Char → List Char → List String
  | [], acc => [String.mk acc.reverse]
  | c :: cs, acc =>
    if c = '\n' then String.mk acc.reverse :: splitNlAux cs []
    else splitNlAux cs (c :: acc)

/-- Python's `s.split("\n")`: every newline separates two lines, so
`"a\nb"` gives `["a", "b"]`, `""` gives `[""]` and a trailing newline
yields a final empty line. -/
def pySplitNl (s : String) : List String :=
  splitNlAux s.data []

/-- The story built by `generate_pdf` (`app.py` lines 160–162): for
each line of `report_text.split("\n")`, one paragraph of the
ampersand-escaped line followed by one spacer. -/
def generate_pdf_story (report_text : String) : List StoryElem :=
  (pySplitNl report_text).flatMap
    (fun line => [StoryElem.paragraph (escapeAmp line), StoryElem.spacer])

/-- The download offered by `st.download_button` (`app.py` lines
200–205): filename `f"{patient_name}_Medical_Report.pdf"` and MIME type
`"application/pdf"`. -/
structure Download where
  filename : String
  mime : String
  story : List StoryElem
deriving Repr, DecidableEq

/-- Result of one click of "Generate Full Report": the updated session
state, the feedback banner, and the download offer when one is made. -/
structure GenResult where
  state : SessionState
  feedback : Feedback
  download : Option Download
deriving Repr, DecidableEq

/-- The record appended on a successful report generation
(`app.py` lines 182–187). -/
def mkRecord (inp : Inputs) (dates : Dates) : PatientRecord :=
  { id := inp.patient_id
    name := inp.patient_name
    date := dates.historyDate
    report := generate_full_medical_report inp dates.reportDate }

/-- The "Generate Full Report" handler (`app.py` lines 173–205).
Guard order as in the source: first `if not patient_id or not
patient_name` (Python truthiness, i.e. emptiness without trimming),
then `elif not analysis_done`; otherwise the report is generated,
stored as `latest_report`, appended to `patient_history`, and offered
as a PDF download. -/
def generateFullReport (inp : Inputs) (dates : Dates) (s : SessionState) :
    GenResult :=
  if inp.patient_id = "" || inp.patient_name = "" then
    { state := s
      feedback := Feedback.warning "Please enter Patient ID and Patient Name"
      download := none }
  else if !s.analysis_done then
    { state := s
      feedback := Feedback.warning "Perform analysis before generating report"
      download := none }
  else
    let report_text := generate_full_medical_report inp dates.reportDate
    { state :=
        { s with
          latest_report := some report_text
          patient_history := s.patient_history ++ [mkRecord inp dates] }
      feedback :=
        Feedback.success "Full medical report generated and saved successfully"
      download :=
        some { filename := inp.patient_name ++ "_Medical_Report.pdf"
               mime := "application/pdf"
               story := generate_pdf_story report_text } }

/-- One rendered "Patient History" expander (`app.py` lines 216–218):
the label `f"🧾 {i}. {record['name']} ({record['date']})"` and the
record's report text as body. -/
structure RenderedEntry where
  label : String
  body : String
deriving Repr, DecidableEq

/-- Label and body of the history entry at (1-based) position `i`. -/
def renderEntry (i : Nat) (r : PatientRecord) : RenderedEntry :=
  { label := "🧾 " ++ toString i ++ ". " ++ r.name ++ " (" ++ r.date ++ ")"
    body := r.report }

/-- The "Patient History" section (`app.py` lines 216–218):
`enumerate(patient_history, start=1)` rendered in insertion order. -/
def renderHistory (history : List PatientRecord) : List RenderedEntry :=
  history.enum.map (fun p => renderEntry (p.1 + 1) p.2)

/-- One user interaction that can change session state: a click of one
of the two buttons (with the widget values current at that moment), or
a plain re-run of the script, which touches no session state. -/
inductive AppAction where
  | analyze (symptoms : String)
  | generate (inp : Inputs) (dates : Dates)
  | rerun
deriving Repr

/-- State transition of one interaction. -/
def step (a : AppAction) (s : SessionState) : SessionState :=
  match a with
  | AppAction.analyze symptoms => (analyzeSymptoms symptoms s).1
  | AppAction.generate inp dates => (generateFullReport inp dates s).state
  | AppAction.rerun => s

/-- Run a sequence of interactions from a starting state. -/
def runActions (acts : List AppAction) (s : SessionState) : SessionState :=
  acts.foldl (fun t a => step a t) s

/-- A session state is reachable when some interaction sequence
produces it from the initial state. -/
def Reachable (s : SessionState) : Prop :=
  ∃ acts : List AppAction, runActions acts initState = s

/-- `sub` occurs as a contiguous substring of `s`. -/
def ContainsSub (s sub : String) : Prop :=
  ∃ pre post : String, s = pre ++ sub ++ post

/-! ### Helper lemmas -/

/-- A string all of whose characters are Python whitespace strips to
the empty string. -/
theorem pyStrip_all_space (s : String) (h : s.data.all pyIsSpace = true) :
    pyStrip s = "" := by
  have h1 : s.data.dropWhile pyIsSpace = [] := by
    apply List.dropWhile_eq_nil_iff.mpr
    intro x hx
    exact (List.all_eq_true.mp h) x hx
  simp [pyStrip, h1]

/-- The success branch of "Generate Full Report", as an equation. -/
theorem generateFullReport_success (inp : Inputs) (dates : Dates)
    (s : SessionState) (hid : inp.patient_id ≠ "") (hname : inp.patient_name ≠ "")
    (ha : s.analysis_done = true) :
    generateFullReport inp dates s =
      { state :=
          { s with
            latest_report := some (generate_full_medical_report inp dates.reportDate)
            patient_history := s.patient_history ++ [mkRecord inp dates] }
        feedback :=
          Feedback.success "Full medical report generated and saved successfully"
        download :=
          some { filename := inp.patient_name ++ "_Medical_Report.pdf"
                 mime := "application/pdf"
                 story := generate_pdf_story
                   (generate_full_medical_report inp dates.reportDate) } } := by
  simp [generateFullReport, hid, hname, ha]

/-! ### C4: the "Analyze Symptoms" action -/

/-- C4: "Analyze Symptoms" sets `analysisDone` to true (and reports
success) exactly when the symptom text is non-empty after stripping
whitespace; on whitespace-only or empty text the session state is
unchanged and a warning is signalled. -/
theorem analyze_symptoms_spec (symptoms : String) (s : SessionState) :
    (pyStrip symptoms ≠ "" →
      analyzeSymptoms symptoms s =
        ({ s with analysis_done := true },
         Feedback.success "Symptoms analyzed successfully")) ∧
    (pyStrip symptoms = "" →
      analyzeSymptoms symptoms s =
        (s, Feedback.warning "Please enter symptoms")) := by
  constructor
  · intro h
    simp [analyzeSymptoms, h]
  · intro h
    simp [analyzeSymptoms, h]

/-- Witness for C4: a concrete symptom text flips the flag; a
whitespace-only one leaves the initial state unchanged with a warning. -/
theorem analyze_symptoms_spec_witness :
    analyzeSymptoms "headache" initState =
      ({ initState with analysis_done := true },
       Feedback.success "Symptoms analyzed successfully") ∧
    analyzeSymptoms "   " initState =
      (initState, Feedback.warning "Please enter symptoms") :=
  ⟨(analyze_symptoms_spec "headache" initState).1 (by decide),
   (analyze_symptoms_spec "   " initState).2 (by decide)⟩

/-! ### C10: monotonicity of `analysisDone` -/

/-- C10: once `analysisDone` is true it stays true under every single
interaction and under every interaction sequence, so reports can be
generated arbitrarily often after one successful analysis. -/
theorem analysis_done_monotone :
    (∀ (a : AppAction) (s : SessionState),
        s.analysis_done = true → (step a s).analysis_done = true) ∧
    (∀ (acts : List AppAction) (s : SessionState),
        s.analysis_done = true → (runActions acts s).analysis_done = true) := by
  have hstep : ∀ (a : AppAction) (s : SessionState),
      s.analysis_done = true → (step a s).analysis_done = true := by
    intro a s h
    cases a with
    | analyze symptoms =>
      by_cases hs : pyStrip symptoms ≠ ""
      · simp [step, analyzeSymptoms, hs]
      · simp [step, analyzeSymptoms, hs, h]
    | generate inp dates =>
      by_cases hid : inp.patient_id = "" ∨ inp.patient_name = ""
      · rcases hid with hid | hid <;> simp [step, generateFullReport, hid, h]
      · push_neg at hid
        simp [step, generateFullReport, hid.1, hid.2, h]
    | rerun => exact h
  refine ⟨hstep, ?_⟩
  intro acts
  induction acts with
  | nil => intro s h; exact h
  | cons a rest ih =>
    intro s h
    exact ih (step a s) (hstep a s h)

/-- Witness for C10: after analyzing once, an empty-symptom analyze
click, a report generation and a re-run all leave the flag true. -/
theorem analysis_done_monotone_witness :
    (runActions
      [AppAction.analyze "",
       AppAction.generate
         ⟨"P1", "Jane Doe", 45, "Female", none, "headache", true⟩
         ⟨"12 October 2026", "12-10-2026"⟩,
       AppAction.rerun]
      { patient_history := [], analysis_done := true,
        latest_report := none }).analysis_done = true :=
  analysis_done_monotone.2 _ _ rfl

/-! ### C1: the "Generate Full Report" guard -/

/-- C1: when `analysisDone` is false or the patient id or name is
empty, "Generate Full Report" leaves the whole session state unchanged
(so nothing is appended and `latestReport` is untouched), offers no
download and surfaces a warning; when `analysisDone` is true and both
fields are non-empty, the report is produced, stored as the latest
report and appended to the history. -/
theorem generate_report_guard (inp : Inputs) (dates : Dates) (s : SessionState) :
    (¬ (s.analysis_done = true ∧ inp.patient_id ≠ "" ∧ inp.patient_name ≠ "") →
      (generateFullReport inp dates s).state = s ∧
      (generateFullReport inp dates s).download = none ∧
      ∃ msg, (generateFullReport inp dates s).feedback = Feedback.warning msg) ∧
    (s.analysis_done = true → inp.patient_id ≠ "" → inp.patient_name ≠ "" →
      (generateFullReport inp dates s).state.patient_history
          = s.patient_history ++ [mkRecord inp dates] ∧
      (generateFullReport inp dates s).state.latest_report
          = some (generate_full_medical_report inp dates.reportDate)) := by
  constructor
  · intro hbad
    by_cases hid : inp.patient_id = ""
    · simp [generateFullReport, hid]
    · by_cases hname : inp.patient_name = ""
      · simp [generateFullReport, hname]
      · have ha : s.analysis_done = false := by
          cases hdone : s.analysis_done with
          | false => rfl
          | true => exact absurd ⟨hdone, hid, hname⟩ hbad
        simp [generateFullReport, hid, hname, ha]
  · intro ha hid hname
    rw [generateFullReport_success inp dates s hid hname ha]
    exact ⟨rfl, rfl⟩

/-- Witness for C1: with empty id nothing changes and a warning is
shown; with the guard satisfied the one record is appended and the
report stored. -/
theorem generate_report_guard_witness :
    ((generateFullReport ⟨"", "Jane Doe", 45, "Female", none, "h", true⟩
        ⟨"12 October 2026", "12-10-2026"⟩ initState).state = initState ∧
     (generateFullReport ⟨"", "Jane Doe", 45, "Female", none, "h", true⟩
        ⟨"12 October 2026", "12-10-2026"⟩ initState).download = none ∧
     ∃ msg, (generateFullReport ⟨"", "Jane Doe", 45, "Female", none, "h", true⟩
        ⟨"12 October 2026", "12-10-2026"⟩ initState).feedback
          = Feedback.warning msg) ∧
    ((generateFullReport ⟨"P1", "Jane Doe", 45, "Female", none, "h", true⟩
        ⟨"12 October 2026", "12-10-2026"⟩
        { patient_history := [], analysis_done := true,
          latest_report := none }).state.patient_history
       = [] ++ [mkRecord ⟨"P1", "Jane Doe", 45, "Female", none, "h", true⟩
                  ⟨"12 October 2026", "12-10-2026"⟩] ∧
     (generateFullReport ⟨"P1", "Jane Doe", 45, "Female", none, "h", true⟩
        ⟨"12 October 2026", "12-10-2026"⟩
        { patient_history := [], analysis_done := true,
          latest_report := none }).state.latest_report
       = some (generate_full_medical_report
                 ⟨"P1", "Jane Doe", 45, "Female", none, "h", true⟩
                 "12 October 2026")) :=
  ⟨(generate_report_guard _ _ initState).1 (by simp [initState]),
   (generate_report_guard _ _ _).2 rfl (by decide) (by decide)⟩

/-! ### C8: download filename and MIME type -/

/-- C8: every successful report generation offers the download under
the filename `patientName ++ "_Medical_Report.pdf"` with MIME type
`application/pdf`. -/
theorem download_filename_mime (inp : Inputs) (dates : Dates) (s : SessionState)
    (hid : inp.patient_id ≠ "") (hname : inp.patient_name ≠ "")
    (ha : s.analysis_done = true) :
    (generateFullReport inp dates s).download =
      some { filename := inp.patient_name ++ "_Medical_Report.pdf"
             mime := "application/pdf"
             story := generate_pdf_story
               (generate_full_medical_report inp dates.reportDate) } := by
  rw [generateFullReport_success inp dates s hid hname ha]

/-- Witness for C8 at a concrete successful generation. -/
theorem download_filename_mime_witness :
    (generateFullReport ⟨"P1", "Jane Doe", 45, "Female", none, "h", true⟩
        ⟨"12 October 2026", "12-10-2026"⟩
        { patient_history := [], analysis_done := true,
          latest_report := none }).download =
      some { filename := "Jane Doe" ++ "_Medical_Report.pdf"
             mime := "application/pdf"
             story := generate_pdf_story
               (generate_full_medical_report
                 ⟨"P1", "Jane Doe", 45, "Female", none, "h", true⟩
                 "12 October 2026") } :=
  download_filename_mime _ _ _ (by decide) (by decide) rfl

/-! ### C9: the report guard tests truthiness and does not trim -/

/-- C9: with whitespace-only (hence non-empty) patient id and name and
`analysisDone` true, "Generate Full Report" succeeds and appends a
record whose id and name are those whitespace-only strings — whereas
"Analyze Symptoms" on the same whitespace-only text warns and changes
nothing, because its check strips first. -/
theorem generate_guard_truthiness (id name : String)
    (hid : id ≠ "") (hname : name ≠ "")
    (hidw : id.data.all pyIsSpace = true) (_hnw : name.data.all pyIsSpace = true)
    (age : Nat) (gender sym : String) (mri : Option (List Nat)) (sc : Bool)
    (dates : Dates) (s : SessionState) (ha : s.analysis_done = true) :
    (generateFullReport ⟨id, name, age, gender, mri, sym, sc⟩ dates s).state.patient_history
        = s.patient_history
          ++ [mkRecord ⟨id, name, age, gender, mri, sym, sc⟩ dates] ∧
    (mkRecord ⟨id, name, age, gender, mri, sym, sc⟩ dates).id = id ∧
    (mkRecord ⟨id, name, age, gender, mri, sym, sc⟩ dates).name = name ∧
    (generateFullReport ⟨id, name, age, gender, mri, sym, sc⟩ dates s).feedback
        = Feedback.success "Full medical report generated and saved successfully" ∧
    (∀ s₂ : SessionState,
        analyzeSymptoms id s₂ = (s₂, Feedback.warning "Please enter symptoms")) := by
  have hsucc := generateFullReport_success ⟨id, name, age, gender, mri, sym, sc⟩
    dates s hid hname ha
  refine ⟨by rw [hsucc], rfl, rfl, by rw [hsucc], ?_⟩
  intro s₂
  exact (analyze_symptoms_spec id s₂).2 (pyStrip_all_space id hidw)

/-- Witness for C9: a single-space id and name pass the guard while the
same text fails the symptom check. -/
theorem generate_guard_truthiness_witness :
    (generateFullReport ⟨" ", " ", 30, "Male", none, "h", true⟩
        ⟨"12 October 2026", "12-10-2026"⟩
        { patient_history := [], analysis_done := true,
          latest_report := none }).state.patient_history
        = [] ++ [mkRecord ⟨" ", " ", 30, "Male", none, "h", true⟩
                   ⟨"12 October 2026", "12-10-2026"⟩] ∧
    (mkRecord ⟨" ", " ", 30, "Male", none, "h", true⟩
        ⟨"12 October 2026", "12-10-2026"⟩).id = " " ∧
    (mkRecord ⟨" ", " ", 30, "Male", none, "h", true⟩
        ⟨"12 October 2026", "12-10-2026"⟩).name = " " ∧
    (generateFullReport ⟨" ", " ", 30, "Male", none, "h", true⟩
        ⟨"12 October 2026", "12-10-2026"⟩
        { patient_history := [], analysis_done := true,
          latest_report := none }).feedback
        = Feedback.success "Full medical report generated and saved successfully" ∧
    (∀ s₂ : SessionState,
        analyzeSymptoms " " s₂ = (s₂, Feedback.warning "Please enter symptoms")) :=
  generate_guard_truthiness " " " " (by decide) (by decide) (by decide) (by decide)
    30 "Male" "h" none true ⟨"12 October 2026", "12-10-2026"⟩ _ rfl

/-! ### C2: the report is a pure function of five fields, with constant
diagnostic content -/

/-- C2: two invocations agreeing on patient id, name, age, gender and
the current date produce identical report text, whatever the symptom
text and the uploaded image are; and for every input the report
carries the constant diagnostic text: the tumor type "Glioma", the
risk line "Risk Level : High" and the fixed recommendation block. -/
theorem report_pure_and_constant :
    (∀ (inp₁ inp₂ : Inputs) (d₁ d₂ : String),
        inp₁.patient_id = inp₂.patient_id →
        inp₁.patient_name = inp₂.patient_name →
        inp₁.patient_age = inp₂.patient_age →
        inp₁.patient_gender = inp₂.patient_gender →
        d₁ = d₂ →
        generate_full_medical_report inp₁ d₁
          = generate_full_medical_report inp₂ d₂) ∧
    (∀ (inp : Inputs) (d : String),
        ContainsSub (generate_full_medical_report inp d) "Glioma" ∧
        ContainsSub (generate_full_medical_report inp d) "Risk Level : High" ∧
        ContainsSub (generate_full_medical_report inp d)
          "MEDICAL RECOMMENDATIONS\n-----------------------\n• Immediate consultation with a Neurologist\n• Further diagnostic confirmation if required\n• Continuous neurological monitoring\n• Avoid delay in medical evaluation") := by
  constructor
  · intro inp₁ inp₂ d₁ d₂ hid hname hage hgender hd
    simp [generate_full_medical_report, hid, hname, hage, hgender, hd]
  · intro inp d
    refine ⟨⟨tplBeforeId ++ inp.patient_id ++ tplBeforeName ++ inp.patient_name
        ++ tplBeforeAge ++ toString inp.patient_age ++ tplBeforeGender
        ++ inp.patient_gender ++ tplBeforeDate ++ d ++ tplBeforeTumor,
        tplAfterTumor, ?_⟩,
      ⟨tplBeforeId ++ inp.patient_id ++ tplBeforeName ++ inp.patient_name
        ++ tplBeforeAge ++ toString inp.patient_age ++ tplBeforeGender
        ++ inp.patient_gender ++ tplBeforeDate ++ d ++ tplBeforeTumor
        ++ "Glioma" ++ " brain tumor.\n\nRISK ASSESSMENT\n---------------\n",
        "\n\nMEDICAL RECOMMENDATIONS\n-----------------------\n• Immediate consultation with a Neurologist\n• Further diagnostic confirmation if required\n• Continuous neurological monitoring\n• Avoid delay in medical evaluation\n\nDISCLAIMER\n----------\nThis report is generated using an AI-assisted system\nfor educational and research purposes only.\nIt does not replace professional medical diagnosis.\n", ?_⟩,
      ⟨tplBeforeId ++ inp.patient_id ++ tplBeforeName ++ inp.patient_name
        ++ tplBeforeAge ++ toString inp.patient_age ++ tplBeforeGender
        ++ inp.patient_gender ++ tplBeforeDate ++ d ++ tplBeforeTumor
        ++ "Glioma" ++ " brain tumor.\n\nRISK ASSESSMENT\n---------------\nRisk Level : High\n\n",
        "\n\nDISCLAIMER\n----------\nThis report is generated using an AI-assisted system\nfor educational and research purposes only.\nIt does not replace professional medical diagnosis.\n", ?_⟩⟩ <;>
      simp [generate_full_medical_report, tplAfterTumor, String.append_assoc]

/-- Witness for C2: changing the symptom text and the upload while
keeping the five report fields fixed leaves the report unchanged. -/
theorem report_pure_and_constant_witness :
    generate_full_medical_report
        ⟨"P1", "Jane Doe", 45, "Female", none, "headache", true⟩
        "12 October 2026"
      = generate_full_medical_report
        ⟨"P1", "Jane Doe", 45, "Female", some [0, 1, 2], "", false⟩
        "12 October 2026" :=
  report_pure_and_constant.1 _ _ _ _ rfl rfl rfl rfl rfl

/-! ### C3: the concrete Jane Doe report -/

set_option maxRecDepth 16384 in
/-- C3: for patient id "P1", name "Jane Doe", age 45, gender "Female",
the report text contains each required literal line and the constant
diagnostic strings, for every symptom text (and any upload, checkbox
value and date). -/
theorem report_jane_contains (symptoms : String) (mri : Option (List Nat))
    (sc : Bool) (d : String) :
    ContainsSub (generate_full_medical_report
        ⟨"P1", "Jane Doe", 45, "Female", mri, symptoms, sc⟩ d)
      "Patient ID      : P1" ∧
    ContainsSub (generate_full_medical_report
        ⟨"P1", "Jane Doe", 45, "Female", mri, symptoms, sc⟩ d)
      "Patient Name    : Jane Doe" ∧
    ContainsSub (generate_full_medical_report
        ⟨"P1", "Jane Doe", 45, "Female", mri, symptoms, sc⟩ d)
      "Age             : 45 Years" ∧
    ContainsSub (generate_full_medical_report
        ⟨"P1", "Jane Doe", 45, "Female", mri, symptoms, sc⟩ d)
      "Gender          : Female" ∧
    ContainsSub (generate_full_medical_report
        ⟨"P1", "Jane Doe", 45, "Female", mri, symptoms, sc⟩ d)
      "Glioma" ∧
    ContainsSub (generate_full_medical_report
        ⟨"P1", "Jane Doe", 45, "Female", mri, symptoms, sc⟩ d)
      "Risk Level : High" := by
  have hrep : generate_full_medical_report
      ⟨"P1", "Jane Doe", 45, "Female", mri, symptoms, sc⟩ d =
      tplBeforeId ++ "P1" ++ tplBeforeName ++ "Jane Doe" ++ tplBeforeAge
        ++ toString (45 : Nat) ++ tplBeforeGender ++ "Female" ++ tplBeforeDate
        ++ d ++ tplBeforeTumor ++ "Glioma" ++ tplAfterTumor := rfl
  refine ⟨⟨"\nPATIENT MEDICAL REPORT\n---------------------\n\n",
      tplBeforeName ++ "Jane Doe" ++ tplBeforeAge ++ toString (45 : Nat)
        ++ tplBeforeGender ++ "Female" ++ tplBeforeDate ++ d ++ tplBeforeTumor
        ++ "Glioma" ++ tplAfterTumor, ?_⟩,
    ⟨tplBeforeId ++ "P1" ++ "\n",
      tplBeforeAge ++ toString (45 : Nat) ++ tplBeforeGender ++ "Female"
        ++ tplBeforeDate ++ d ++ tplBeforeTumor ++ "Glioma" ++ tplAfterTumor, ?_⟩,
    ⟨tplBeforeId ++ "P1" ++ tplBeforeName ++ "Jane Doe" ++ "\n",
      "\nGender          : " ++ "Female" ++ tplBeforeDate ++ d ++ tplBeforeTumor
        ++ "Glioma" ++ tplAfterTumor, ?_⟩,
    ⟨tplBeforeId ++ "P1" ++ tplBeforeName ++ "Jane Doe" ++ tplBeforeAge
        ++ toString (45 : Nat) ++ " Years\n",
      tplBeforeDate ++ d ++ tplBeforeTumor ++ "Glioma" ++ tplAfterTumor, ?_⟩,
    ⟨tplBeforeId ++ "P1" ++ tplBeforeName ++ "Jane Doe" ++ tplBeforeAge
        ++ toString (45 : Nat) ++ tplBeforeGender ++ "Female" ++ tplBeforeDate
        ++ d ++ tplBeforeTumor,
      tplAfterTumor, ?_⟩,
    ⟨tplBeforeId ++ "P1" ++ tplBeforeName ++ "Jane Doe" ++ tplBeforeAge
        ++ toString (45 : Nat) ++ tplBeforeGender ++ "Female" ++ tplBeforeDate
        ++ d ++ tplBeforeTumor ++ "Glioma"
        ++ " brain tumor.\n\nRISK ASSESSMENT\n---------------\n",
      "\n\nMEDICAL RECOMMENDATIONS\n-----------------------\n• Immediate consultation with a Neurologist\n• Further diagnostic confirmation if required\n• Continuous neurological monitoring\n• Avoid delay in medical evaluation\n\nDISCLAIMER\n----------\nThis report is generated using an AI-assisted system\nfor educational and research purposes only.\nIt does not replace professional medical diagnosis.\n", ?_⟩⟩
  · rw [hrep,
      show tplBeforeId = "\nPATIENT MEDICAL REPORT\n---------------------\n\n"
          ++ "Patient ID      : " from by decide,
      show ("Patient ID      : P1" : String) = "Patient ID      : " ++ "P1"
        from by decide]
    simp only [String.append_assoc]
  · rw [hrep,
      show tplBeforeName = "\n" ++ "Patient Name    : " from by decide,
      show ("Patient Name    : Jane Doe" : String)
          = "Patient Name    : " ++ "Jane Doe" from by decide]
    simp only [String.append_assoc]
  · rw [hrep,
      show tplBeforeAge = "\n" ++ "Age             : " from by decide,
      show toString (45 : Nat) = "45" from by decide,
      show tplBeforeGender = " Years" ++ "\nGender          : " from by decide,
      show ("Age             : 45 Years" : String)
          = "Age             : " ++ "45" ++ " Years" from by decide]
    simp only [String.append_assoc]
  · rw [hrep,
      show tplBeforeGender = " Years\n" ++ "Gender          : " from by decide,
      show ("Gender          : Female" : String)
          = "Gender          : " ++ "Female" from by decide]
    simp only [String.append_assoc]
  · rw [hrep]
  · rw [hrep,
      show tplAfterTumor = " brain tumor.\n\nRISK ASSESSMENT\n---------------\n"
          ++ "Risk Level : High"
          ++ "\n\nMEDICAL RECOMMENDATIONS\n-----------------------\n• Immediate consultation with a Neurologist\n• Further diagnostic confirmation if required\n• Continuous neurological monitoring\n• Avoid delay in medical evaluation\n\nDISCLAIMER\n----------\nThis report is generated using an AI-assisted system\nfor educational and research purposes only.\nIt does not replace professional medical diagnosis.\n"
        from by decide]
    simp only [String.append_assoc]

/-! ### C5: records in history are always well-formed -/

/-- Each single interaction either leaves the history untouched or,
with `analysisDone` true and non-empty id and name, appends exactly the
one new record. -/
theorem step_history_cases (a : AppAction) (s : SessionState) :
    (step a s).patient_history = s.patient_history ∨
    (s.analysis_done = true ∧
      ∃ (inp : Inputs) (dates : Dates),
        inp.patient_id ≠ "" ∧ inp.patient_name ≠ "" ∧
        (step a s).patient_history
          = s.patient_history ++ [mkRecord inp dates]) := by
  cases a with
  | analyze symptoms =>
    left
    by_cases hs : pyStrip symptoms ≠ "" <;> simp [step, analyzeSymptoms, hs]
  | generate inp dates =>
    by_cases hid : inp.patient_id = ""
    · left; simp [step, generateFullReport, hid]
    · by_cases hname : inp.patient_name = ""
      · left; simp [step, generateFullReport, hname]
      · cases ha : s.analysis_done with
        | false => left; simp [step, generateFullReport, hid, hname, ha]
        | true =>
          right
          refine ⟨rfl, inp, dates, hid, hname, ?_⟩
          rw [step, generateFullReport_success inp dates s hid hname ha]
  | rerun => left; rfl

/-- C5: in every reachable session state each stored record has a
non-empty id and a non-empty name; and any interaction that changes the
history does so in a state where `analysisDone` is true, by appending
exactly one record with non-empty id and name. -/
theorem history_records_valid :
    (∀ s : SessionState, Reachable s →
        ∀ r ∈ s.patient_history, r.id ≠ "" ∧ r.name ≠ "") ∧
    (∀ (a : AppAction) (s : SessionState),
        (step a s).patient_history ≠ s.patient_history →
        s.analysis_done = true ∧
        ∃ newRec : PatientRecord,
          (step a s).patient_history = s.patient_history ++ [newRec] ∧
          newRec.id ≠ "" ∧ newRec.name ≠ "") := by
  constructor
  · have hpres : ∀ (acts : List AppAction) (s : SessionState),
        (∀ r ∈ s.patient_history, r.id ≠ "" ∧ r.name ≠ "") →
        ∀ r ∈ (runActions acts s).patient_history, r.id ≠ "" ∧ r.name ≠ "" := by
      intro acts
      induction acts with
      | nil => intro s h; exact h
      | cons a rest ih =>
        intro s h
        apply ih
        rcases step_history_cases a s with heq | ⟨_, inp, dates, hid, hname, happ⟩
        · rw [heq]; exact h
        · rw [happ]
          intro r hr
          rcases List.mem_append.mp hr with hold | hnew
          · exact h r hold
          · rw [List.mem_singleton.mp hnew]
            exact ⟨hid, hname⟩
    intro s hs
    obtain ⟨acts, hacts⟩ := hs
    rw [← hacts]
    exact hpres acts initState (by intro r hr; simp [initState] at hr)
  · intro a s hne
    rcases step_history_cases a s with heq | ⟨ha, inp, dates, hid, hname, happ⟩
    · exact absurd heq hne
    · exact ⟨ha, mkRecord inp dates, happ, hid, hname⟩

/-- Witness for C5: after one symptom analysis and one report
generation, the single stored record has non-empty id and name, and the
generating step appended exactly one well-formed record with the flag
set. -/
theorem history_records_valid_witness :
    ((mkRecord ⟨"P1", "Jane Doe", 45, "Female", none, "h", true⟩
        ⟨"12 October 2026", "12-10-2026"⟩).id ≠ "" ∧
     (mkRecord ⟨"P1", "Jane Doe", 45, "Female", none, "h", true⟩
        ⟨"12 October 2026", "12-10-2026"⟩).name ≠ "") ∧
    (({ patient_history := [], analysis_done := true,
        latest_report := none } : SessionState).analysis_done = true ∧
     ∃ newRec : PatientRecord,
       (step (AppAction.generate
           ⟨"P1", "Jane Doe", 45, "Female", none, "h", true⟩
           ⟨"12 October 2026", "12-10-2026"⟩)
         { patient_history := [], analysis_done := true,
           latest_report := none }).patient_history
         = ([] : List PatientRecord) ++ [newRec] ∧
       newRec.id ≠ "" ∧ newRec.name ≠ "") :=
  ⟨history_records_valid.1
      (runActions
        [AppAction.analyze "headache",
         AppAction.generate ⟨"P1", "Jane Doe", 45, "Female", none, "h", true⟩
           ⟨"12 October 2026", "12-10-2026"⟩]
        initState)
      ⟨_, rfl⟩
      (mkRecord ⟨"P1", "Jane Doe", 45, "Female", none, "h", true⟩
        ⟨"12 October 2026", "12-10-2026"⟩)
      (List.Mem.head _),
   history_records_valid.2
     (AppAction.generate ⟨"P1", "Jane Doe", 45, "Female", none, "h", true⟩
       ⟨"12 October 2026", "12-10-2026"⟩)
     { patient_history := [], analysis_done := true, latest_report := none }
     (by simp [step, generateFullReport])⟩

/-! ### C6: the record store is append-only and rendered in order -/

/-- C6: a successful generation appends exactly one record at the end
of the history, leaving existing entries untouched; a second identical
generation appends a second, separate copy (no deduplication); and the
history renders one entry per record, in insertion order, labelled with
its 1-based position, name and date. -/
theorem history_append_only_and_render :
    (∀ (inp : Inputs) (dates : Dates) (s : SessionState),
        inp.patient_id ≠ "" → inp.patient_name ≠ "" → s.analysis_done = true →
        (generateFullReport inp dates s).state.patient_history
          = s.patient_history ++ [mkRecord inp dates] ∧
        (generateFullReport inp dates
            (generateFullReport inp dates s).state).state.patient_history
          = s.patient_history ++ [mkRecord inp dates, mkRecord inp dates]) ∧
    (∀ h : List PatientRecord, (renderHistory h).length = h.length) ∧
    (∀ (h : List PatientRecord) (j : Nat) (hj : j < h.length)
        (hj2 : j < (renderHistory h).length),
        (renderHistory h).get ⟨j, hj2⟩ = renderEntry (j + 1) (h.get ⟨j, hj⟩)) := by
  refine ⟨?_, ?_, ?_⟩
  · intro inp dates s hid hname ha
    have h1 := generateFullReport_success inp dates s hid hname ha
    have ha2 : (generateFullReport inp dates s).state.analysis_done = true := by
      rw [h1]; exact ha
    have h2 := generateFullReport_success inp dates
      (generateFullReport inp dates s).state hid hname ha2
    constructor
    · rw [h1]
    · rw [h2, h1]
      simp
  · intro h
    simp [renderHistory]
  · intro h j hj hj2
    simp [renderHistory, List.get_eq_getElem]

/-- Witness for C6: from an empty history, generating twice with the
same inputs stores two copies, and the one-record history renders with
position 1. -/
theorem history_append_only_and_render_witness :
    ((generateFullReport ⟨"P1", "Jane Doe", 45, "Female", none, "h", true⟩
        ⟨"12 October 2026", "12-10-2026"⟩
        { patient_history := [], analysis_done := true,
          latest_report := none }).state.patient_history
      = ([] : List PatientRecord)
          ++ [mkRecord ⟨"P1", "Jane Doe", 45, "Female", none, "h", true⟩
                ⟨"12 October 2026", "12-10-2026"⟩] ∧
     (generateFullReport ⟨"P1", "Jane Doe", 45, "Female", none, "h", true⟩
        ⟨"12 October 2026", "12-10-2026"⟩
        (generateFullReport ⟨"P1", "Jane Doe", 45, "Female", none, "h", true⟩
          ⟨"12 October 2026", "12-10-2026"⟩
          { patient_history := [], analysis_done := true,
            latest_report := none }).state).state.patient_history
      = ([] : List PatientRecord)
          ++ [mkRecord ⟨"P1", "Jane Doe", 45, "Female", none, "h", true⟩
                ⟨"12 October 2026", "12-10-2026"⟩,
              mkRecord ⟨"P1", "Jane Doe", 45, "Female", none, "h", true⟩
                ⟨"12 October 2026", "12-10-2026"⟩]) ∧
    (renderHistory [mkRecord ⟨"P1", "Jane Doe", 45, "Female", none, "h", true⟩
        ⟨"12 October 2026", "12-10-2026"⟩]).get
        ⟨0, by simp [renderHistory]⟩
      = renderEntry 1
          ([mkRecord ⟨"P1", "Jane Doe", 45, "Female", none, "h", true⟩
              ⟨"12 October 2026", "12-10-2026"⟩].get ⟨0, by simp⟩) :=
  ⟨history_append_only_and_render.1 _ _ _ (by decide) (by decide) rfl,
   history_append_only_and_render.2.2 _ 0 (by simp) (by simp [renderHistory])⟩

/-! ### C7: the PDF story maps the report line by line -/

/-- The character-level effect of `line.replace("&", "&amp;")`: each
`&` expands to the five characters of `"&amp;"` and every other
character maps to itself. -/
theorem replaceAmpChars_eq_flatten (l : List Char) :
    replaceAmpChars l
      = (l.map (fun c =>
          if c = '&' then ['&', 'a', 'm', 'p', ';'] else [c])).flatten := by
  induction l with
  | nil => rfl
  | cons c cs ih =>
    by_cases hc : c = '&' <;> simp [replaceAmpChars, hc, ih]

/-- The story of a line list has two flowables per line. -/
theorem flatMap_pair_length (lines : List String) :
    (lines.flatMap (fun line =>
      [StoryElem.paragraph (escapeAmp line), StoryElem.spacer])).length
      = 2 * lines.length := by
  induction lines with
  | nil => rfl
  | cons l rest ih =>
    simp only [List.flatMap_cons, List.length_append, List.length_cons,
      List.length_nil, ih]
    omega

/-- Story indexing: the flatMap of line ↦ [paragraph, spacer] places
the paragraph of line `j` at position `2*j` and a spacer at `2*j+1`. -/
theorem flatMap_pair_get (lines : List String) :
    ∀ (j : Nat) (hj : j < lines.length)
      (h2 : 2 * j < (lines.flatMap (fun line =>
        [StoryElem.paragraph (escapeAmp line), StoryElem.spacer])).length)
      (h3 : 2 * j + 1 < (lines.flatMap (fun line =>
        [StoryElem.paragraph (escapeAmp line), StoryElem.spacer])).length),
      (lines.flatMap (fun line =>
        [StoryElem.paragraph (escapeAmp line), StoryElem.spacer])).get ⟨2 * j, h2⟩
        = StoryElem.paragraph (escapeAmp (lines.get ⟨j, hj⟩)) ∧
      (lines.flatMap (fun line =>
        [StoryElem.paragraph (escapeAmp line), StoryElem.spacer])).get
          ⟨2 * j + 1, h3⟩
        = StoryElem.spacer := by
  induction lines with
  | nil => intro j hj; exact absurd hj (by simp)
  | cons l rest ih =>
    intro j hj h2 h3
    cases j with
    | zero => exact ⟨rfl, rfl⟩
    | succ j' =>
      have e2 : 2 * (j' + 1) = 2 * j' + 1 + 1 := by ring
      have e3 : 2 * (j' + 1) + 1 = 2 * j' + 1 + 1 + 1 := by ring
      have hj' : j' < rest.length := by
        simpa using Nat.lt_of_succ_lt_succ hj
      have h2' : 2 * j' < (rest.flatMap (fun line =>
          [StoryElem.paragraph (escapeAmp line), StoryElem.spacer])).length := by
        rw [flatMap_pair_length] at h2 ⊢
        simp only [List.length_cons] at h2
        omega
      have h3' : 2 * j' + 1 < (rest.flatMap (fun line =>
          [StoryElem.paragraph (escapeAmp line), StoryElem.spacer])).length := by
        rw [flatMap_pair_length] at h3 ⊢
        simp only [List.length_cons] at h3
        omega
      obtain ⟨ihp, ihs⟩ := ih j' hj' h2' h3'
      constructor
      · simpa [List.flatMap_cons, e2, List.get_eq_getElem] using ihp
      · simpa [List.flatMap_cons, e3, List.get_eq_getElem] using ihs

/-- C7: the story has exactly two flowables per newline-separated line
of the input text: the paragraph of the line (at even positions, in
line order) followed by a spacer; and the paragraph text replaces each
`&` by `&amp;`, passing every other character through unchanged. -/
theorem pdf_story_spec :
    (∀ text : String,
        (generate_pdf_story text).length = 2 * (pySplitNl text).length) ∧
    (∀ (text : String) (j : Nat) (hj : j < (pySplitNl text).length)
        (h2 : 2 * j < (generate_pdf_story text).length)
        (h3 : 2 * j + 1 < (generate_pdf_story text).length),
        (generate_pdf_story text).get ⟨2 * j, h2⟩
          = StoryElem.paragraph (escapeAmp ((pySplitNl text).get ⟨j, hj⟩)) ∧
        (generate_pdf_story text).get ⟨2 * j + 1, h3⟩ = StoryElem.spacer) ∧
    (∀ line : String,
        (escapeAmp line).data
          = (line.data.map (fun c =>
              if c = '&' then ['&', 'a', 'm', 'p', ';'] else [c])).flatten) := by
  refine ⟨?_, ?_, ?_⟩
  · intro text
    exact flatMap_pair_length (pySplitNl text)
  · intro text j hj h2 h3
    exact flatMap_pair_get (pySplitNl text) j hj h2 h3
  · intro line
    exact replaceAmpChars_eq_flatten line.data

/-- Witness for C7 on the text "a&b\nc<d>": two lines give four story
elements, line 0 renders as the paragraph "a&amp;b", and the angle
brackets of the second line pass through unescaped. -/
theorem pdf_story_spec_witness :
    (generate_pdf_story "a&b\nc<d>").length
        = 2 * (pySplitNl "a&b\nc<d>").length ∧
    (generate_pdf_story "a&b\nc<d>").get ⟨2 * 0, by decide⟩
        = StoryElem.paragraph
            (escapeAmp ((pySplitNl "a&b\nc<d>").get ⟨0, by decide⟩)) ∧
    (generate_pdf_story "a&b\nc<d>").get ⟨2 * 0 + 1, by decide⟩
        = StoryElem.spacer ∧
    (escapeAmp "c<d>").data
        = (("c<d>" : String).data.map (fun c =>
            if c = '&' then ['&', 'a', 'm', 'p', ';'] else [c])).flatten :=
  ⟨pdf_story_spec.1 "a&b\nc<d>",
   (pdf_story_spec.2.1 "a&b\nc<d>" 0 (by decide) (by decide) (by decide)).1,
   (pdf_story_spec.2.1 "a&b\nc<d>" 0 (by decide) (by decide) (by decide)).2,
   pdf_story_spec.2.2 "c<d>"⟩
